import Mathlib

/-! # af-video-tester: a shallow embedding of the stream checks

The development models the four check functions of package `cmd`
(`CheckStatus`, `CheckWithVLC`, `CheckRTMPStatus`, `LongCheckWithVLC`) and
their composition `FullTesting`.

* Go strings are modelled by Lean strings; every marker the code searches
  for is ASCII, so containment on characters agrees with containment on bytes.
* Time is counted in nanoseconds on a session clock that starts when
  `cmd.Start()` returns.  Values of type `time.Duration` are `int64`
  nanoseconds and wrap (`wrap64`).
* Everything the code obtains from the outside (the TCP dial, the HTTP
  exchange, what the player prints and when, whether `Kill` fails, and how the
  Go scheduler orders goroutines that become runnable at the same instant) is
  an explicit input.
* A function returns `none` exactly when its final `select` blocks forever.
-/

namespace AFVT

/-! ## Go string helpers (`strings` package) -/

/-- Character-list form of `strings.HasPrefix`. -/
def hasPrefixChars : List Char → List Char → Bool
  | _, [] => true
  | [], _ :: _ => false
  | c :: s, p :: ps => c == p && hasPrefixChars s ps

/-- Character-list form of `strings.Contains`: some suffix starts with `sub`. -/
def containsChars : List Char → List Char → Bool
  | [], sub => hasPrefixChars [] sub
  | c :: s, sub => hasPrefixChars (c :: s) sub || containsChars s sub

/-- Go `strings.Contains(s, substr)`. -/
def Contains (s substr : String) : Bool :=
  containsChars s.data substr.data

/-- Go `strings.TrimPrefix(s, prefix)`, here named after its second argument `pre`. -/
def TrimPrefix (s pre : String) : String :=
  if hasPrefixChars s.data pre.data then String.mk (s.data.drop pre.data.length) else s

/-- Search for `sub` starting at offset `i`; `-1` when there is no occurrence. -/
def indexFrom (sub : List Char) : List Char → Nat → Int
  | [], i => if hasPrefixChars [] sub then (i : Int) else -1
  | c :: s, i => if hasPrefixChars (c :: s) sub then (i : Int) else indexFrom sub s (i + 1)

/-- Go `strings.Index(s, substr)`: offset of the first occurrence, or `-1`. -/
def Index (s substr : String) : Int :=
  indexFrom substr.data s.data 0

/-! ## Durations and timers -/

/-- Two's-complement wrap of an integer into the `int64` range. -/
def wrap64 (x : Int) : Int :=
  (x + 2 ^ 63) % 2 ^ 64 - 2 ^ 63

/-- Go `time.Second`, in nanoseconds. -/
def Second : Int := 1000000000

/-- Firing time of `time.After(d)` armed at time `now`: a non-positive duration fires at once. -/
def after (now : Nat) (d : Int) : Nat :=
  now + d.toNat

/-! ## Observable effects and outcomes -/

/-- The externally visible operations a check performs, in program order. -/
inductive Effect where
  | httpGet (url : String)
  | bodyClose
  | dial (hostPort : String)
  | connClose
  | command (path url : String)
  | start
  | kill
  | closeStdout
  | closeStderr
  deriving DecidableEq

/-- What a check returns: its value, the session-clock time at which the final
`select` fired (`none` when no player session was started), and its effects. -/
structure Outcome (α : Type) where
  value : α
  concludedAt : Option Nat
  trace : List Effect
  deriving DecidableEq

/-! ## The playlist probe -/

/-- Result of `http.Get` followed by `io.ReadAll`, as seen by `CheckStatus`. -/
inductive HttpResult where
  /-- The call `http.Get` returned an error. -/
  | getErr
  /-- A response arrived; `body = none` when `io.ReadAll` returned an error. -/
  | resp (statusCode : Int) (body : Option String)
  deriving DecidableEq

/-- Go `http.StatusOK`. -/
def StatusOK : Int := 200

/-- `CheckStatus` of `hls.go`: GET the playlist and look for `".ts"`. -/
def CheckStatus (http : String → HttpResult) (url : String) : Outcome Bool :=
  match http url with
  | .getErr => ⟨false, none, [.httpGet url]⟩
  | .resp statusCode body =>
    if statusCode ≠ StatusOK then ⟨false, none, [.httpGet url, .bodyClose]⟩
    else
      match body with
      | none => ⟨false, none, [.httpGet url, .bodyClose]⟩
      | some playlistContent =>
        if Contains playlistContent ".ts" then ⟨true, none, [.httpGet url, .bodyClose]⟩
        else ⟨false, none, [.httpGet url, .bodyClose]⟩

/-! ## The player process and the final `select` -/

/-- One run of the external player, as the engine observes it. -/
structure PlayerRun where
  /-- The call `cmd.StdoutPipe()` fails. -/
  stdoutPipeErr : Bool
  /-- The call `cmd.StderrPipe()` fails. -/
  stderrPipeErr : Bool
  /-- The call `cmd.Start()` fails. -/
  startErr : Bool
  /-- Lines returned by the stdout scanner with their read times (only logged). -/
  stdoutLines : List (Nat × String)
  /-- Time at which `outScanner.Scan()` first returns false, if it ever does. -/
  stdoutEnd : Option Nat
  /-- Lines returned by the stderr scanner with their read times. -/
  stderrLines : List (Nat × String)
  /-- The call `cmd.Process.Kill()` returns an error. -/
  killErr : Bool
  /-- Scheduler choice among goroutines that become runnable at the same instant. -/
  tie : Nat

/-- What can wake the main goroutine out of its `select`. -/
inductive Signal where
  /-- The stdout goroutine left its loop and sent on `done`. -/
  | stdoutEnd
  /-- A goroutine armed by a success-marker line sent on `done`. -/
  | success
  /-- A goroutine armed by a failure-marker line sent on `done`. -/
  | failure
  /-- The channel of `time.After(timeout)` delivered. -/
  | timeout
  deriving DecidableEq

/-- A signal together with the time at which it becomes ready. -/
structure Pending where
  time : Nat
  sig : Signal
  deriving DecidableEq

/-- Earliest ready time among pending signals. -/
def earliest : List Pending → Option Nat
  | [] => none
  | p :: ps =>
    match earliest ps with
    | none => some p.time
    | some t => some (min p.time t)

/-- The signal the main goroutine handles: one of those ready at the earliest
time, chosen by the scheduler; `none` when nothing will ever be ready. -/
def firstReady (tie : Nat) (ps : List Pending) : Option Pending :=
  match earliest ps with
  | none => none
  | some t =>
    let ready := ps.filter (fun p => p.time == t)
    ready[tie % ready.length]?

/-- The send on `done` by the stdout goroutine once its scan loop ends. -/
def stdoutDone (p : PlayerRun) : List Pending :=
  match p.stdoutEnd with
  | none => []
  | some t => [⟨t, .stdoutEnd⟩]

/-! ## `CheckWithVLC` (hls.go) -/

/-- The stderr goroutine of `CheckWithVLC`: each line containing the marker
arms a send on `done` after `duration + 5s`. -/
def hlsTimers (duration : Int) : List (Nat × String) → List Pending
  | [] => []
  | (t, line) :: rest =>
    (if Contains line "Changing stream format Unknown -> TS"
      then [⟨after t (wrap64 (duration + 5 * Second)), .success⟩] else [])
    ++ hlsTimers duration rest

/-- `CheckWithVLC` of `hls.go`. -/
def CheckWithVLC (p : PlayerRun) (url : String) (d : Int) (VLCPath : String) :
    Option (Outcome Bool) :=
  let duration := wrap64 (d * Second)
  let timeout := wrap64 (duration + 10 * Second)
  if p.stdoutPipeErr then some ⟨false, none, [.command VLCPath url]⟩
  else if p.stderrPipeErr then some ⟨false, none, [.command VLCPath url, .closeStdout]⟩
  else if p.startErr then
    some ⟨false, none, [.command VLCPath url, .start, .closeStderr, .closeStdout]⟩
  else
    let done := stdoutDone p ++ hlsTimers duration p.stderrLines
    match firstReady p.tie (done ++ [⟨after 0 timeout, .timeout⟩]) with
    | none => none
    | some w =>
      let trace := [.command VLCPath url, .start, .kill, .closeStderr, .closeStdout]
      match w.sig with
      | .timeout =>
        if p.killErr then some ⟨false, some w.time, trace⟩
        else some ⟨false, some w.time, trace⟩
      | _ =>
        if p.killErr then some ⟨false, some w.time, trace⟩
        else some ⟨true, some w.time, trace⟩

/-! ## `CheckRTMPStatus` (rtmp.go) -/

/-- The `hostPort` that `CheckRTMPStatus` derives from the URL. -/
def rtmpHostPort (url : String) : String :=
  let urlWithoutProtocol := TrimPrefix url "rtmp://"
  let slashIndex := Index urlWithoutProtocol "/"
  if slashIndex ≠ -1 then String.mk (urlWithoutProtocol.data.take slashIndex.toNat)
  else urlWithoutProtocol

/-- The `streamPath` that `CheckRTMPStatus` derives from the URL (only logged). -/
def rtmpStreamPath (url : String) : String :=
  let urlWithoutProtocol := TrimPrefix url "rtmp://"
  let slashIndex := Index urlWithoutProtocol "/"
  if slashIndex ≠ -1 then String.mk (urlWithoutProtocol.data.drop slashIndex.toNat)
  else ""

/-- The stderr goroutine of `CheckRTMPStatus`: the success marker arms a 15 s
timer that sets `pathStatus = true`, the failure marker a 5 s timer that sets
`pathStatus = false`; each then sends on `done`. -/
def rtmpTimers : List (Nat × String) → List Pending
  | [] => []
  | (t, line) :: rest =>
    (if Contains line "Raising max DPB to 3" then [⟨after t (15 * Second), .success⟩] else [])
    ++ (if Contains line "stream error" then [⟨after t (5 * Second), .failure⟩] else [])
    ++ rtmpTimers rest

/-- Value of the shared flag (`pathStatus`, `status`) when the main goroutine
reads it after receiving from `done`: written by the goroutine that sent, or
still the zero value when the stdout goroutine sent. -/
def flagAfter : Signal → Bool
  | .success => true
  | _ => false

/-- `CheckRTMPStatus` of `rtmp.go`; `dial hostPort = true` means the TCP dial succeeds. -/
def CheckRTMPStatus (dial : String → Bool) (p : PlayerRun) (url : String) (VLCPath : String) :
    Option (Outcome (Bool × Bool)) :=
  let timeout := 35 * Second
  let hostPort := rtmpHostPort url
  if !dial hostPort then some ⟨(false, false), none, [.dial hostPort]⟩
  else
    let serverStatus := true
    if p.stdoutPipeErr then
      some ⟨(serverStatus, false), none, [.dial hostPort, .command VLCPath url, .connClose]⟩
    else if p.stderrPipeErr then
      some ⟨(serverStatus, false), none, [.dial hostPort, .command VLCPath url, .connClose]⟩
    else if p.startErr then
      some ⟨(serverStatus, false), none,
        [.dial hostPort, .command VLCPath url, .start, .connClose]⟩
    else
      let done := stdoutDone p ++ rtmpTimers p.stderrLines
      match firstReady p.tie (done ++ [⟨after 0 timeout, .timeout⟩]) with
      | none => none
      | some w =>
        let trace := [.dial hostPort, .command VLCPath url, .start, .kill, .connClose]
        match w.sig with
        | .timeout =>
          if p.killErr then some ⟨(false, false), some w.time, trace⟩
          else some ⟨(false, false), some w.time, trace⟩
        | s =>
          let pathStatus := flagAfter s
          if p.killErr then some ⟨(serverStatus, false), some w.time, trace⟩
          else some ⟨(serverStatus, pathStatus), some w.time, trace⟩

/-! ## `LongCheckWithVLC` (long_rtmp.go) -/

/-- The stderr goroutine of `LongCheckWithVLC`: a 100 s timer on the success
marker, a 5 s timer on the failure marker. -/
def longTimers : List (Nat × String) → List Pending
  | [] => []
  | (t, line) :: rest =>
    (if Contains line "Raising max DPB to 3" then [⟨after t (100 * Second), .success⟩] else [])
    ++ (if Contains line "stream error" then [⟨after t (5 * Second), .failure⟩] else [])
    ++ longTimers rest

/-- `LongCheckWithVLC` of `long_rtmp.go`: its `select` has the single case `<-done`. -/
def LongCheckWithVLC (p : PlayerRun) (url : String) (VLCPath : String) :
    Option (Outcome Bool) :=
  if p.stdoutPipeErr then some ⟨false, none, [.command VLCPath url]⟩
  else if p.stderrPipeErr then some ⟨false, none, [.command VLCPath url]⟩
  else if p.startErr then some ⟨false, none, [.command VLCPath url, .start]⟩
  else
    let done := stdoutDone p ++ longTimers p.stderrLines
    match firstReady p.tie done with
    | none => none
    | some w =>
      let status := flagAfter w.sig
      let trace := [.command VLCPath url, .start, .kill]
      if p.killErr then some ⟨status, some w.time, trace⟩
      else some ⟨status, some w.time, trace⟩

/-! ## `FullTesting` (full_testing.go) -/

/-- The four variables the two goroutines of `FullTesting` write. -/
structure FullVars where
  serverStatus : Bool
  pathStatus : Bool
  firstHlsStatus : Bool
  secondHlsStatus : Bool
  deriving DecidableEq

/-- What `FullTesting` returns, with the effects of each goroutine. -/
structure FullOutcome where
  value : Bool × Bool × Bool × Bool
  rtmpTrace : List Effect
  hlsTrace : List Effect
  deriving DecidableEq

/-- The write of the first goroutine: `serverStatus, pathStatus = CheckRTMPStatus(..)`. -/
def writeRtmp (r : Bool × Bool) (v : FullVars) : FullVars :=
  { v with serverStatus := r.1, pathStatus := r.2 }

/-- The first write of the second goroutine: `firstHlsStatus = CheckStatus(hlsUrl)`. -/
def writeFirstHls (b : Bool) (v : FullVars) : FullVars :=
  { v with firstHlsStatus := b }

/-- The second write of the second goroutine, made only when `firstHlsStatus` holds. -/
def writeSecondHls (b : Option Bool) (v : FullVars) : FullVars :=
  match b with
  | none => v
  | some x => { v with secondHlsStatus := x }

/-- The three writes in one of the orders the scheduler can produce: the write
of the RTMP goroutine falls before, between or after the two HLS writes. -/
def interleave (slot : Nat) (r : Bool × Bool) (h1 : Bool) (h2 : Option Bool) (v : FullVars) :
    FullVars :=
  match slot % 3 with
  | 0 => writeSecondHls h2 (writeFirstHls h1 (writeRtmp r v))
  | 1 => writeSecondHls h2 (writeRtmp r (writeFirstHls h1 v))
  | _ => writeRtmp r (writeSecondHls h2 (writeFirstHls h1 v))

/-- `FullTesting` of `full_testing.go`: both goroutines run to completion
(`wg.Wait()`), then the four variables are returned. -/
def FullTesting (slot : Nat) (dial : String → Bool) (http : String → HttpResult)
    (rtmpRun hlsRun : PlayerRun) (rtmpUrl hlsUrl : String) (d : Int) (VLCPath : String) :
    Option FullOutcome :=
  match CheckRTMPStatus dial rtmpRun rtmpUrl VLCPath with
  | none => none
  | some r =>
    let first := CheckStatus http hlsUrl
    if first.value then
      match CheckWithVLC hlsRun hlsUrl d VLCPath with
      | none => none
      | some second =>
        let v := interleave slot r.value first.value (some second.value) ⟨false, false, false, false⟩
        some ⟨(v.serverStatus, v.pathStatus, v.firstHlsStatus, v.secondHlsStatus),
          r.trace, first.trace ++ second.trace⟩
    else
      let v := interleave slot r.value first.value none ⟨false, false, false, false⟩
      some ⟨(v.serverStatus, v.pathStatus, v.firstHlsStatus, v.secondHlsStatus),
        r.trace, first.trace⟩


/-! ## Predicates and scenarios used in the statements -/

/-- Both pipes were created and `cmd.Start()` succeeded: the player is running. -/
def Launched (p : PlayerRun) : Bool :=
  !p.stdoutPipeErr && !p.stderrPipeErr && !p.startErr

/-- The trace has exactly one `kill`; it comes after `start`, and only deferred
close calls follow it before the function returns. -/
def KilledOnce (trace : List Effect) : Prop :=
  trace.count Effect.kill = 1 ∧
  ∃ pre post, trace = pre ++ Effect.kill :: post ∧ Effect.start ∈ pre ∧
    ∀ e ∈ post, e = Effect.closeStderr ∨ e = Effect.closeStdout ∨ e = Effect.connClose

/-- A player that starts, prints nothing, never closes its stdout, and can be killed. -/
def silentRun : PlayerRun :=
  { stdoutPipeErr := false, stderrPipeErr := false, startErr := false,
    stdoutLines := [], stdoutEnd := none, stderrLines := [], killErr := false, tie := 0 }

/-- A player like `silentRun` that prints one line on stderr at time `t`. -/
def oneLineRun (t : Nat) (line : String) : PlayerRun :=
  { silentRun with stderrLines := [(t, line)] }

/-! ## Helper lemmas -/

/-- The prefix test agrees with the list prefix relation. -/
theorem hasPrefixChars_iff (s sub : List Char) : hasPrefixChars s sub = true ↔ sub <+: s := by
  induction sub generalizing s with
  | nil => simp [hasPrefixChars]
  | cons p ps ih =>
    cases s with
    | nil => simp [hasPrefixChars]
    | cons c s =>
      simp only [hasPrefixChars, Bool.and_eq_true, beq_iff_eq, ih, List.cons_prefix_cons]
      constructor
      · rintro ⟨h1, h2⟩; exact ⟨h1.symm, h2⟩
      · rintro ⟨h1, h2⟩; exact ⟨h1.symm, h2⟩

/-- The containment test agrees with the list infix relation: `strings.Contains` holds exactly when the substring occurs. -/
theorem containsChars_iff (s sub : List Char) : containsChars s sub = true ↔ sub <:+: s := by
  induction s with
  | nil =>
    simp only [containsChars, hasPrefixChars_iff]
    constructor
    · intro h; exact h.isInfix
    · intro h
      have : sub = [] := List.eq_nil_of_infix_nil h
      subst this; exact List.prefix_refl _
  | cons c s ih =>
    simp only [containsChars, Bool.or_eq_true, hasPrefixChars_iff, ih, List.infix_cons_iff]

/-- Only the empty list of pending signals has no earliest time. -/
theorem earliest_eq_none {ps : List Pending} (h : earliest ps = none) : ps = [] := by
  cases ps with
  | nil => rfl
  | cons p ps =>
    simp only [earliest] at h
    split at h <;> simp at h

/-- The earliest time is a lower bound of all pending times. -/
theorem earliest_le {ps : List Pending} {t : Nat} (h : earliest ps = some t) :
    ∀ q ∈ ps, t ≤ q.time := by
  induction ps generalizing t with
  | nil => simp [earliest] at h
  | cons p ps ih =>
    simp only [earliest] at h
    intro q hq
    split at h
    · rename_i hn
      have := earliest_eq_none hn
      subst this
      simp at hq h
      subst hq; omega
    · rename_i u hu
      simp at h
      rcases List.mem_cons.1 hq with rfl | hq
      · omega
      · have := ih hu q hq
        omega

/-- The earliest time is the time of some pending signal. -/
theorem earliest_mem {ps : List Pending} {t : Nat} (h : earliest ps = some t) :
    ∃ q ∈ ps, q.time = t := by
  induction ps generalizing t with
  | nil => simp [earliest] at h
  | cons p ps ih =>
    simp only [earliest] at h
    split at h
    · simp at h
      exact ⟨p, List.mem_cons_self _ _, h⟩
    · rename_i u hu
      simp at h
      obtain ⟨q, hq, hqt⟩ := ih hu
      by_cases hle : p.time ≤ u
      · exact ⟨p, List.mem_cons_self _ _, by omega⟩
      · exact ⟨q, List.mem_cons_of_mem _ hq, by omega⟩

/-- The handled signal is a pending one and none is ready before it. -/
theorem firstReady_spec {tie : Nat} {ps : List Pending} {w : Pending}
    (h : firstReady tie ps = some w) : w ∈ ps ∧ ∀ q ∈ ps, w.time ≤ q.time := by
  unfold firstReady at h
  split at h
  · simp at h
  · rename_i t ht
    simp only at h
    have hm := List.getElem?_mem h
    have hw := List.mem_filter.1 hm
    have hwt : w.time = t := by simpa using hw.2
    exact ⟨hw.1, fun q hq => hwt ▸ earliest_le ht q hq⟩

/-- With at least one pending signal the `select` is woken. -/
theorem firstReady_returns (tie : Nat) (ps : List Pending) (h : ps ≠ []) :
    ∃ w, firstReady tie ps = some w := by
  unfold firstReady
  split
  · rename_i hn
    exact absurd (earliest_eq_none hn) h
  · rename_i t ht
    obtain ⟨q, hq, hqt⟩ := earliest_mem ht
    have hne : (ps.filter (fun p => p.time == t)).length > 0 := by
      apply List.length_pos_of_mem (a := q)
      exact List.mem_filter.2 ⟨hq, by simp [hqt]⟩
    have hlt := Nat.mod_lt tie hne
    exact ⟨_, List.getElem?_eq_getElem hlt⟩

/-- With nothing pending the `select` blocks forever. -/
theorem firstReady_nil (tie : Nat) : firstReady tie [] = none := rfl


/-- The timers of `CheckWithVLC` are the success timers of the marker lines. -/
theorem mem_hlsTimers {duration : Int} {lines : List (Nat × String)} {w : Pending} :
    w ∈ hlsTimers duration lines ↔
      ∃ x ∈ lines, Contains x.2 "Changing stream format Unknown -> TS" = true ∧
        w = ⟨after x.1 (wrap64 (duration + 5 * Second)), .success⟩ := by
  induction lines with
  | nil => simp [hlsTimers]
  | cons x rest ih =>
    obtain ⟨t, line⟩ := x
    simp only [hlsTimers, List.mem_append, ih, List.exists_mem_cons_iff]  -- fixme
    by_cases hc : Contains line "Changing stream format Unknown -> TS" = true
    · simp [hc]
    · simp [hc]

/-- One step of the stderr goroutine of `CheckRTMPStatus`. -/
theorem mem_rtmpTimers_cons {t : Nat} {line : String} {rest : List (Nat × String)}
    {w : Pending} :
    w ∈ rtmpTimers ((t, line) :: rest) ↔
      (Contains line "Raising max DPB to 3" = true ∧ w = ⟨after t (15 * Second), .success⟩) ∨
      (Contains line "stream error" = true ∧ w = ⟨after t (5 * Second), .failure⟩) ∨
      w ∈ rtmpTimers rest := by
  simp only [rtmpTimers, List.mem_append]
  by_cases hc : Contains line "Raising max DPB to 3" = true <;>
  by_cases hf : Contains line "stream error" = true <;>
  simp [hc, hf, or_assoc]

/-- The timers of `CheckRTMPStatus` are the 15 s timers of success lines and the 5 s timers of failure lines. -/
theorem mem_rtmpTimers {lines : List (Nat × String)} {w : Pending} :
    w ∈ rtmpTimers lines ↔
      (∃ x ∈ lines, Contains x.2 "Raising max DPB to 3" = true ∧
        w = ⟨after x.1 (15 * Second), .success⟩) ∨
      (∃ x ∈ lines, Contains x.2 "stream error" = true ∧
        w = ⟨after x.1 (5 * Second), .failure⟩) := by
  induction lines with
  | nil => simp [rtmpTimers]
  | cons x rest ih =>
    obtain ⟨t, line⟩ := x
    rw [mem_rtmpTimers_cons, ih]
    constructor
    · rintro (⟨h1, h2⟩ | ⟨h1, h2⟩ | ⟨x, hx, h1, h2⟩ | ⟨x, hx, h1, h2⟩)
      · exact Or.inl ⟨(t, line), List.mem_cons_self _ _, h1, h2⟩
      · exact Or.inr ⟨(t, line), List.mem_cons_self _ _, h1, h2⟩
      · exact Or.inl ⟨x, List.mem_cons_of_mem _ hx, h1, h2⟩
      · exact Or.inr ⟨x, List.mem_cons_of_mem _ hx, h1, h2⟩
    · rintro (⟨x, hx, h1, h2⟩ | ⟨x, hx, h1, h2⟩)
      · rcases List.mem_cons.1 hx with rfl | hx
        · exact Or.inl ⟨h1, h2⟩
        · exact Or.inr (Or.inr (Or.inl ⟨x, hx, h1, h2⟩))
      · rcases List.mem_cons.1 hx with rfl | hx
        · exact Or.inr (Or.inl ⟨h1, h2⟩)
        · exact Or.inr (Or.inr (Or.inr ⟨x, hx, h1, h2⟩))

/-- One step of the stderr goroutine of `LongCheckWithVLC`. -/
theorem mem_longTimers_cons {t : Nat} {line : String} {rest : List (Nat × String)}
    {w : Pending} :
    w ∈ longTimers ((t, line) :: rest) ↔
      (Contains line "Raising max DPB to 3" = true ∧ w = ⟨after t (100 * Second), .success⟩) ∨
      (Contains line "stream error" = true ∧ w = ⟨after t (5 * Second), .failure⟩) ∨
      w ∈ longTimers rest := by
  simp only [longTimers, List.mem_append]
  by_cases hc : Contains line "Raising max DPB to 3" = true <;>
  by_cases hf : Contains line "stream error" = true <;>
  simp [hc, hf, or_assoc]

/-- The timers of `LongCheckWithVLC` are the 100 s timers of success lines and the 5 s timers of failure lines. -/
theorem mem_longTimers {lines : List (Nat × String)} {w : Pending} :
    w ∈ longTimers lines ↔
      (∃ x ∈ lines, Contains x.2 "Raising max DPB to 3" = true ∧
        w = ⟨after x.1 (100 * Second), .success⟩) ∨
      (∃ x ∈ lines, Contains x.2 "stream error" = true ∧
        w = ⟨after x.1 (5 * Second), .failure⟩) := by
  induction lines with
  | nil => simp [longTimers]
  | cons x rest ih =>
    obtain ⟨t, line⟩ := x
    rw [mem_longTimers_cons, ih]
    constructor
    · rintro (⟨h1, h2⟩ | ⟨h1, h2⟩ | ⟨x, hx, h1, h2⟩ | ⟨x, hx, h1, h2⟩)
      · exact Or.inl ⟨(t, line), List.mem_cons_self _ _, h1, h2⟩
      · exact Or.inr ⟨(t, line), List.mem_cons_self _ _, h1, h2⟩
      · exact Or.inl ⟨x, List.mem_cons_of_mem _ hx, h1, h2⟩
      · exact Or.inr ⟨x, List.mem_cons_of_mem _ hx, h1, h2⟩
    · rintro (⟨x, hx, h1, h2⟩ | ⟨x, hx, h1, h2⟩)
      · rcases List.mem_cons.1 hx with rfl | hx
        · exact Or.inl ⟨h1, h2⟩
        · exact Or.inr (Or.inr (Or.inl ⟨x, hx, h1, h2⟩))
      · rcases List.mem_cons.1 hx with rfl | hx
        · exact Or.inr (Or.inl ⟨h1, h2⟩)
        · exact Or.inr (Or.inr (Or.inr ⟨x, hx, h1, h2⟩))

/-- A launched player had no pipe error and no start error. -/
theorem Launched_iff {p : PlayerRun} (h : Launched p = true) :
    p.stdoutPipeErr = false ∧ p.stderrPipeErr = false ∧ p.startErr = false := by
  simpa [Launched, and_assoc] using h

/-- Once the player runs, `CheckWithVLC` is decided by the signal that wakes its `select`. -/
theorem CheckWithVLC_launched {p : PlayerRun} (h : Launched p = true) (url : String) (d : Int)
    (VLCPath : String) :
    CheckWithVLC p url d VLCPath =
      (firstReady p.tie (stdoutDone p ++ hlsTimers (wrap64 (d * Second)) p.stderrLines ++
        [⟨after 0 (wrap64 (wrap64 (d * Second) + 10 * Second)), .timeout⟩])).map
        (fun w => ⟨decide (w.sig ≠ .timeout) && !p.killErr, some w.time,
          [.command VLCPath url, .start, .kill, .closeStderr, .closeStdout]⟩) := by
  obtain ⟨h1, h2, h3⟩ := Launched_iff h
  simp only [CheckWithVLC, h1, h2, h3]
  cases hf : firstReady p.tie (stdoutDone p ++ hlsTimers (wrap64 (d * Second)) p.stderrLines ++
        [⟨after 0 (wrap64 (wrap64 (d * Second) + 10 * Second)), .timeout⟩]) with
  | none => simp
  | some w =>
    obtain ⟨t, s⟩ := w
    cases s <;> cases hk : p.killErr <;> simp

/-- After a successful dial and start, `CheckRTMPStatus` is decided by the signal that wakes its `select`. -/
theorem CheckRTMPStatus_launched {dial : String → Bool} {p : PlayerRun} {url : String}
    (hd : dial (rtmpHostPort url) = true) (h : Launched p = true) (VLCPath : String) :
    CheckRTMPStatus dial p url VLCPath =
      (firstReady p.tie (stdoutDone p ++ rtmpTimers p.stderrLines ++
        [⟨after 0 (35 * Second), .timeout⟩])).map
        (fun w => ⟨(decide (w.sig ≠ .timeout), flagAfter w.sig && !p.killErr), some w.time,
          [.dial (rtmpHostPort url), .command VLCPath url, .start, .kill, .connClose]⟩) := by
  obtain ⟨h1, h2, h3⟩ := Launched_iff h
  simp only [CheckRTMPStatus, h1, h2, h3, hd]
  cases hf : firstReady p.tie (stdoutDone p ++ rtmpTimers p.stderrLines ++
        [⟨after 0 (35 * Second), .timeout⟩]) with
  | none => simp
  | some w =>
    obtain ⟨t, s⟩ := w
    cases s <;> cases hk : p.killErr <;> simp [flagAfter]

/-- Once the player runs, `LongCheckWithVLC` is decided by the signal on `done`, if any. -/
theorem LongCheckWithVLC_launched {p : PlayerRun} (h : Launched p = true) (url : String)
    (VLCPath : String) :
    LongCheckWithVLC p url VLCPath =
      (firstReady p.tie (stdoutDone p ++ longTimers p.stderrLines)).map
        (fun w => ⟨flagAfter w.sig, some w.time, [.command VLCPath url, .start, .kill]⟩) := by
  obtain ⟨h1, h2, h3⟩ := Launched_iff h
  simp only [LongCheckWithVLC, h1, h2, h3]
  cases hf : firstReady p.tie (stdoutDone p ++ longTimers p.stderrLines) with
  | none => simp
  | some w => simp

/-- The function `CheckWithVLC` always returns: its `select` has a timeout case. -/
theorem CheckWithVLC_returns (p : PlayerRun) (url : String) (d : Int) (VLCPath : String) :
    ∃ r, CheckWithVLC p url d VLCPath = some r := by
  by_cases h : Launched p = true
  · rw [CheckWithVLC_launched h]
    obtain ⟨w, hw⟩ := firstReady_returns p.tie
      (stdoutDone p ++ hlsTimers (wrap64 (d * Second)) p.stderrLines ++
        [⟨after 0 (wrap64 (wrap64 (d * Second) + 10 * Second)), .timeout⟩]) (by simp)
    rw [hw]; exact ⟨_, rfl⟩
  · unfold CheckWithVLC
    cases h1 : p.stdoutPipeErr <;> cases h2 : p.stderrPipeErr <;> cases h3 : p.startErr <;>
      simp [Launched, h1, h2, h3] at h ⊢

/-- The function `CheckRTMPStatus` always returns: its `select` has a timeout case. -/
theorem CheckRTMPStatus_returns (dial : String → Bool) (p : PlayerRun) (url : String)
    (VLCPath : String) : ∃ r, CheckRTMPStatus dial p url VLCPath = some r := by
  by_cases hd : dial (rtmpHostPort url) = true
  · by_cases h : Launched p = true
    · rw [CheckRTMPStatus_launched hd h]
      obtain ⟨w, hw⟩ := firstReady_returns p.tie
        (stdoutDone p ++ rtmpTimers p.stderrLines ++
          [⟨after 0 (35 * Second), .timeout⟩]) (by simp)
      rw [hw]; exact ⟨_, rfl⟩
    · unfold CheckRTMPStatus
      cases h1 : p.stdoutPipeErr <;> cases h2 : p.stderrPipeErr <;> cases h3 : p.startErr <;>
        simp [Launched, h1, h2, h3, hd] at h ⊢
  · simp at hd
    simp [CheckRTMPStatus, hd]

/-! ## The claims -/

/-- C1: when the TCP dial to the host:port derived from the URL fails,
`CheckRTMPStatus` returns `(false, false)`, and its trace holds neither the
creation nor the start of the player process. -/
theorem C1_unreachable_returns_false_false (dial : String → Bool) (p : PlayerRun)
    (url VLCPath : String) (h : dial (rtmpHostPort url) = false) :
    ∃ r, CheckRTMPStatus dial p url VLCPath = some r ∧ r.value = (false, false) ∧
      r.trace = [Effect.dial (rtmpHostPort url)] ∧
      Effect.start ∉ r.trace ∧ ∀ path u, Effect.command path u ∉ r.trace := by
  refine ⟨⟨(false, false), none, [Effect.dial (rtmpHostPort url)]⟩, ?_, rfl, rfl, ?_, ?_⟩
  · simp [CheckRTMPStatus, h]
  · simp
  · simp

/-- Witness for C1: a dialer that only reaches `live.example.com:1935`, asked for another host. -/
theorem C1_unreachable_witness :
    (fun hp => hp == "live.example.com:1935") (rtmpHostPort "rtmp://10.0.0.9:1935/app/key") = false ∧
    ∃ r, CheckRTMPStatus (fun hp => hp == "live.example.com:1935") silentRun
        "rtmp://10.0.0.9:1935/app/key" "/usr/bin/vlc" = some r ∧ r.value = (false, false) ∧
      r.trace = [Effect.dial (rtmpHostPort "rtmp://10.0.0.9:1935/app/key")] ∧
      Effect.start ∉ r.trace ∧ ∀ path u, Effect.command path u ∉ r.trace :=
  ⟨by decide, C1_unreachable_returns_false_false _ silentRun _ "/usr/bin/vlc" (by decide)⟩

/-- The playlist probe answers true exactly on a 200 response whose body was read and contains `.ts`. -/
theorem CheckStatus_value_iff (http : String → HttpResult) (url : String) :
    (CheckStatus http url).value = true ↔
      ∃ body, http url = HttpResult.resp 200 (some body) ∧ ".ts".data <:+: body.data := by
  unfold CheckStatus
  cases hr : http url with
  | getErr => simp
  | resp statusCode body =>
    by_cases hs : statusCode = StatusOK
    · cases body with
      | none => simp [hs, StatusOK]
      | some content =>
        by_cases hc : Contains content ".ts" = true
        · have := (containsChars_iff content.data ".ts".data).1 hc
          simp [hs, StatusOK, hc, this]
        · have hn : ¬ (".ts".data <:+: content.data) :=
            fun h => hc ((containsChars_iff content.data ".ts".data).2 h)
          simp [hs, StatusOK, hc, hn]
    · have hs2 : ¬ statusCode = 200 := hs
      simp [hs, hs2]

/-- C2: `CheckStatus` returns true if and only if the GET succeeded with
status 200, the body was read without error and the body contains `".ts"`;
the 200 body `"#EXTM3U\nsegment0.ts\n"` gives true and `"#EXTM3U\n"` gives false. -/
theorem C2_CheckStatus_true_iff_ok_and_ts :
    (∀ (http : String → HttpResult) (url : String),
      (CheckStatus http url).value = true ↔
        ∃ body, http url = HttpResult.resp 200 (some body) ∧ ".ts".data <:+: body.data) ∧
    (∀ url, (CheckStatus (fun _ => HttpResult.resp 200 (some "#EXTM3U\nsegment0.ts\n")) url).value
      = true) ∧
    (∀ url, (CheckStatus (fun _ => HttpResult.resp 200 (some "#EXTM3U\n")) url).value = false) := by
  refine ⟨CheckStatus_value_iff, ?_, ?_⟩
  · intro url
    have h : Contains "#EXTM3U\nsegment0.ts\n" ".ts" = true := by decide
    simp [CheckStatus, StatusOK, h]
  · intro url
    have h : Contains "#EXTM3U\n" ".ts" = false := by decide
    simp [CheckStatus, StatusOK, h]

/-- The playlist probe never creates or starts a player. -/
theorem CheckStatus_trace_no_player (http : String → HttpResult) (url : String) :
    Effect.start ∉ (CheckStatus http url).trace ∧
      ∀ a b, Effect.command a b ∉ (CheckStatus http url).trace := by
  unfold CheckStatus
  cases http url with
  | getErr => simp
  | resp statusCode body =>
    by_cases hs : statusCode = StatusOK
    · cases body with
      | none => simp [hs]
      | some content =>
        by_cases hc : Contains content ".ts" = true <;> simp [hs, hc]
    · simp [hs]

/-- In every order of the writes each variable ends with the value its own goroutine wrote. -/
theorem interleave_values (slot : Nat) (r : Bool × Bool) (h1 : Bool) (h2 : Option Bool) :
    (interleave slot r h1 h2 ⟨false, false, false, false⟩).serverStatus = r.1 ∧
    (interleave slot r h1 h2 ⟨false, false, false, false⟩).pathStatus = r.2 ∧
    (interleave slot r h1 h2 ⟨false, false, false, false⟩).firstHlsStatus = h1 ∧
    (interleave slot r h1 h2 ⟨false, false, false, false⟩).secondHlsStatus = h2.getD false := by
  unfold interleave
  cases h2 <;> split <;> simp [writeRtmp, writeFirstHls, writeSecondHls]

/-- Closed form of `FullTesting` in terms of the three checks. -/
theorem FullTesting_eq (slot : Nat) (dial : String → Bool) (http : String → HttpResult)
    (rtmpRun hlsRun : PlayerRun) (rtmpUrl hlsUrl : String) (d : Int) (VLCPath : String)
    {r : Outcome (Bool × Bool)} {s : Outcome Bool}
    (hr : CheckRTMPStatus dial rtmpRun rtmpUrl VLCPath = some r)
    (hs : CheckWithVLC hlsRun hlsUrl d VLCPath = some s) :
    FullTesting slot dial http rtmpRun hlsRun rtmpUrl hlsUrl d VLCPath =
      some ⟨(r.value.1, r.value.2, (CheckStatus http hlsUrl).value,
          if (CheckStatus http hlsUrl).value then s.value else false),
        r.trace,
        if (CheckStatus http hlsUrl).value then (CheckStatus http hlsUrl).trace ++ s.trace
        else (CheckStatus http hlsUrl).trace⟩ := by
  by_cases hv : (CheckStatus http hlsUrl).value = true
  · obtain ⟨i1, i2, i3, i4⟩ := interleave_values slot r.value true (some s.value)
    simp only [FullTesting, hr, hs, hv, if_true, i1, i2, i3, i4, Option.getD_some]
  · simp only [Bool.not_eq_true] at hv
    obtain ⟨i1, i2, i3, i4⟩ := interleave_values slot r.value false none
    simp [FullTesting, hr, hv, i1, i2, i3, i4]

/-- C3: for every scheduling of the two goroutines, `FullTesting` returns
`(s, p, h1, h2)` with `(s, p)` the result of `CheckRTMPStatus` and `h1` the
result of `CheckStatus`; when `h1` is false, `h2` is false and the HLS
goroutine performed only the effects of `CheckStatus` (no player created or
started); otherwise `h2` is the result of `CheckWithVLC`. -/
theorem C3_FullTesting_composes (slot : Nat) (dial : String → Bool) (http : String → HttpResult)
    (rtmpRun hlsRun : PlayerRun) (rtmpUrl hlsUrl : String) (d : Int) (VLCPath : String) :
    ∃ r out, CheckRTMPStatus dial rtmpRun rtmpUrl VLCPath = some r ∧
      FullTesting slot dial http rtmpRun hlsRun rtmpUrl hlsUrl d VLCPath = some out ∧
      (out.value.1, out.value.2.1) = r.value ∧
      out.rtmpTrace = r.trace ∧
      out.value.2.2.1 = (CheckStatus http hlsUrl).value ∧
      ((CheckStatus http hlsUrl).value = false →
        out.value.2.2.2 = false ∧ out.hlsTrace = (CheckStatus http hlsUrl).trace ∧
        Effect.start ∉ out.hlsTrace ∧ ∀ a b, Effect.command a b ∉ out.hlsTrace) ∧
      ((CheckStatus http hlsUrl).value = true →
        ∃ s, CheckWithVLC hlsRun hlsUrl d VLCPath = some s ∧ out.value.2.2.2 = s.value ∧
          out.hlsTrace = (CheckStatus http hlsUrl).trace ++ s.trace) := by
  obtain ⟨r, hr⟩ := CheckRTMPStatus_returns dial rtmpRun rtmpUrl VLCPath
  obtain ⟨s, hs⟩ := CheckWithVLC_returns hlsRun hlsUrl d VLCPath
  refine ⟨r, _, hr, FullTesting_eq slot dial http rtmpRun hlsRun rtmpUrl hlsUrl d VLCPath hr hs,
    rfl, rfl, rfl, ?_, ?_⟩
  · intro hv
    have ht := CheckStatus_trace_no_player http hlsUrl
    simp [hv, ht.1, ht.2]
  · intro hv
    exact ⟨s, hs, by simp [hv], by simp [hv]⟩

/-- The trace of a concluded `CheckWithVLC` session has one kill, after the start. -/
theorem KilledOnce_hls (VLCPath url : String) :
    KilledOnce [Effect.command VLCPath url, Effect.start, Effect.kill, Effect.closeStderr,
      Effect.closeStdout] := by
  refine ⟨by simp [List.count_cons], [Effect.command VLCPath url, Effect.start],
    [Effect.closeStderr, Effect.closeStdout], rfl, by simp, ?_⟩
  intro e he
  simp at he
  rcases he with rfl | rfl <;> simp

/-- The trace of a concluded `CheckRTMPStatus` session has one kill, after the start. -/
theorem KilledOnce_rtmp (hostPort VLCPath url : String) :
    KilledOnce [Effect.dial hostPort, Effect.command VLCPath url, Effect.start, Effect.kill,
      Effect.connClose] := by
  refine ⟨by simp [List.count_cons], [Effect.dial hostPort, Effect.command VLCPath url, Effect.start],
    [Effect.connClose], rfl, by simp, ?_⟩
  intro e he
  simp at he
  simp [he]

/-- The trace of a concluded `LongCheckWithVLC` session has one kill, after the start. -/
theorem KilledOnce_long (VLCPath url : String) :
    KilledOnce [Effect.command VLCPath url, Effect.start, Effect.kill] := by
  refine ⟨by simp [List.count_cons], [Effect.command VLCPath url, Effect.start], [], rfl,
    by simp, ?_⟩
  intro e he
  simp at he

/-- C4: in each engine variant, once the player was started successfully,
every return carries a trace with exactly one `kill`, placed after `start`
and before the function returns (only deferred closes follow it).
`CheckWithVLC` and `CheckRTMPStatus` always return; for `LongCheckWithVLC`
the statement covers every run that returns. -/
theorem C4_kill_exactly_once_before_return (dial : String → Bool) (p : PlayerRun) (url : String)
    (d : Int) (VLCPath : String) (hl : Launched p = true)
    (hd : dial (rtmpHostPort url) = true) :
    (∃ r, CheckWithVLC p url d VLCPath = some r ∧ KilledOnce r.trace) ∧
    (∃ r, CheckRTMPStatus dial p url VLCPath = some r ∧ KilledOnce r.trace) ∧
    (∀ r, LongCheckWithVLC p url VLCPath = some r → KilledOnce r.trace) := by
  refine ⟨?_, ?_, ?_⟩
  · obtain ⟨r, hr⟩ := CheckWithVLC_returns p url d VLCPath
    refine ⟨r, hr, ?_⟩
    rw [CheckWithVLC_launched hl] at hr
    simp only [Option.map_eq_some'] at hr
    obtain ⟨w, -, rfl⟩ := hr
    exact KilledOnce_hls VLCPath url
  · obtain ⟨r, hr⟩ := CheckRTMPStatus_returns dial p url VLCPath
    refine ⟨r, hr, ?_⟩
    rw [CheckRTMPStatus_launched hd hl] at hr
    simp only [Option.map_eq_some'] at hr
    obtain ⟨w, -, rfl⟩ := hr
    exact KilledOnce_rtmp _ VLCPath url
  · intro r hr
    rw [LongCheckWithVLC_launched hl] at hr
    simp only [Option.map_eq_some'] at hr
    obtain ⟨w, -, rfl⟩ := hr
    exact KilledOnce_long VLCPath url

/-- Witness for C4: a player that prints the RTMP success marker at time 0;
all three variants return, `LongCheckWithVLC` after 100 s. -/
theorem C4_kill_exactly_once_witness :
    Launched (oneLineRun 0 "Raising max DPB to 3") = true ∧
    (fun _ => true) (rtmpHostPort "rtmp://10.0.0.9:1935/app/key") = true ∧
    LongCheckWithVLC (oneLineRun 0 "Raising max DPB to 3") "rtmp://10.0.0.9:1935/app/key"
      "/usr/bin/vlc" = some ⟨true, some 100000000000,
        [Effect.command "/usr/bin/vlc" "rtmp://10.0.0.9:1935/app/key", Effect.start,
          Effect.kill]⟩ ∧
    ((∃ r, CheckWithVLC (oneLineRun 0 "Raising max DPB to 3") "rtmp://10.0.0.9:1935/app/key" 10
        "/usr/bin/vlc" = some r ∧ KilledOnce r.trace) ∧
    (∃ r, CheckRTMPStatus (fun _ => true) (oneLineRun 0 "Raising max DPB to 3")
        "rtmp://10.0.0.9:1935/app/key" "/usr/bin/vlc" = some r ∧ KilledOnce r.trace) ∧
    (∀ r, LongCheckWithVLC (oneLineRun 0 "Raising max DPB to 3") "rtmp://10.0.0.9:1935/app/key"
        "/usr/bin/vlc" = some r → KilledOnce r.trace)) :=
  ⟨by decide, by decide, by decide,
    C4_kill_exactly_once_before_return (fun _ => true) (oneLineRun 0 "Raising max DPB to 3")
      "rtmp://10.0.0.9:1935/app/key" 10 "/usr/bin/vlc" (by decide) (by decide)⟩

/-- In `CheckWithVLC` and `CheckRTMPStatus` a failing `Kill` forces the playable verdict to false. -/
theorem kill_error_gives_false (dial : String → Bool) (p : PlayerRun) (url : String) (d : Int)
    (VLCPath : String) (hk : p.killErr = true) :
    (∀ r, CheckWithVLC p url d VLCPath = some r → r.value = false) ∧
    (∀ r, CheckRTMPStatus dial p url VLCPath = some r → r.value.2 = false) := by
  constructor
  · intro r hr
    unfold CheckWithVLC at hr
    simp only [hk] at hr
    split_ifs at hr
    · cases hr; rfl
    · cases hr; rfl
    · cases hr; rfl
    · split at hr
      · cases hr
      · split at hr <;> simp at hr <;> subst hr <;> rfl
  · intro r hr
    unfold CheckRTMPStatus at hr
    simp only [hk] at hr
    split_ifs at hr
    · cases hr; rfl
    · cases hr; rfl
    · cases hr; rfl
    · cases hr; rfl
    · split at hr
      · cases hr
      · split at hr <;> simp at hr <;> subst hr <;> rfl

/-- C5 (evaluation at the failing input): `LongCheckWithVLC` sees the success
marker at time 0, its 100 s timer sets `status = true`, `Kill` then returns
an error, and the function still returns `true`. -/
theorem C5_LongCheckWithVLC_kill_error_returns_true :
    LongCheckWithVLC { oneLineRun 0 "Raising max DPB to 3" with killErr := true }
      "rtmp://10.0.0.9:1935/app/key" "/usr/bin/vlc" =
      some ⟨true, some 100000000000,
        [Effect.command "/usr/bin/vlc" "rtmp://10.0.0.9:1935/app/key", Effect.start,
          Effect.kill]⟩ := by
  decide

/-- In `CheckRTMPStatus` and `LongCheckWithVLC` a true playable verdict comes
only from a stderr line with the success marker whose timer (15 s, 100 s) has
fired: the function concludes exactly at that line's time plus the delay. -/
theorem true_needs_elapsed_success_timer (dial : String → Bool) (p : PlayerRun) (url : String)
    (VLCPath : String) :
    (∀ r, CheckRTMPStatus dial p url VLCPath = some r → r.value.2 = true →
      ∃ x ∈ p.stderrLines, Contains x.2 "Raising max DPB to 3" = true ∧
        r.concludedAt = some (x.1 + 15000000000)) ∧
    (∀ r, LongCheckWithVLC p url VLCPath = some r → r.value = true →
      ∃ x ∈ p.stderrLines, Contains x.2 "Raising max DPB to 3" = true ∧
        r.concludedAt = some (x.1 + 100000000000)) := by
  constructor
  · intro r hr hv
    by_cases hd : dial (rtmpHostPort url) = true
    · by_cases hl : Launched p = true
      · rw [CheckRTMPStatus_launched hd hl] at hr
        simp only [Option.map_eq_some'] at hr
        obtain ⟨w, hw, rfl⟩ := hr
        simp only [Bool.and_eq_true] at hv
        have hsig : w.sig = Signal.success := by
          cases hs : w.sig <;> simp [hs, flagAfter] at hv ⊢
        have hmem := (firstReady_spec hw).1
        simp only [List.mem_append, List.mem_singleton] at hmem
        rcases hmem with (hm | hm) | hm
        · unfold stdoutDone at hm
          split at hm
          · simp at hm
          · simp at hm; rw [hm] at hsig; simp at hsig
        · rcases mem_rtmpTimers.1 hm with ⟨x, hx, hc, rfl⟩ | ⟨x, hx, hc, rfl⟩
          · exact ⟨x, hx, hc, by simp [after, Second]⟩
          · simp at hsig
        · rw [hm] at hsig; simp at hsig
      · unfold CheckRTMPStatus at hr
        cases h1 : p.stdoutPipeErr <;> cases h2 : p.stderrPipeErr <;> cases h3 : p.startErr <;>
          simp [Launched, h1, h2, h3, hd] at hl hr <;> subst hr <;> simp at hv
    · simp at hd
      simp [CheckRTMPStatus, hd] at hr
      subst hr
      simp at hv
  · intro r hr hv
    by_cases hl : Launched p = true
    · rw [LongCheckWithVLC_launched hl] at hr
      simp only [Option.map_eq_some'] at hr
      obtain ⟨w, hw, rfl⟩ := hr
      have hsig : w.sig = Signal.success := by
        cases hs : w.sig <;> simp [hs, flagAfter] at hv ⊢
      have hmem := (firstReady_spec hw).1
      simp only [List.mem_append] at hmem
      rcases hmem with hm | hm
      · unfold stdoutDone at hm
        split at hm
        · simp at hm
        · simp at hm; rw [hm] at hsig; simp at hsig
      · rcases mem_longTimers.1 hm with ⟨x, hx, hc, rfl⟩ | ⟨x, hx, hc, rfl⟩
        · exact ⟨x, hx, hc, by simp [after, Second]⟩
        · simp at hsig
    · unfold LongCheckWithVLC at hr
      cases h1 : p.stdoutPipeErr <;> cases h2 : p.stderrPipeErr <;> cases h3 : p.startErr <;>
        simp [Launched, h1, h2, h3] at hl hr <;> subst hr <;> simp at hv

/-- C6 (evaluation at the failing input): the player prints nothing and its
stdout closes 2 s after the start; `CheckWithVLC` receives the stdout
goroutine's send on `done` and returns `true`, although no line held the
success marker and no confirmation delay elapsed. -/
theorem C6_CheckWithVLC_true_on_stdout_close :
    CheckWithVLC { silentRun with stdoutEnd := some 2000000000 }
      "https://example.com/stream.m3u8" 10 "/usr/bin/vlc" =
      some ⟨true, some 2000000000,
        [Effect.command "/usr/bin/vlc" "https://example.com/stream.m3u8", Effect.start,
          Effect.kill, Effect.closeStderr, Effect.closeStdout]⟩ := by
  decide

/-- Firing times of the fixed timers, in nanoseconds. -/
theorem after_seconds (t : Nat) :
    after t (5 * Second) = t + 5000000000 ∧ after t (15 * Second) = t + 15000000000 ∧
    after t (100 * Second) = t + 100000000000 ∧ after 0 (35 * Second) = 35000000000 := by
  simp [after, Second]

/-- Values inside the `int64` range are not changed by wrapping. -/
theorem wrap64_of_range {x : Int} (h1 : -9223372036854775808 ≤ x) (h2 : x < 9223372036854775808) :
    wrap64 x = x := by
  unfold wrap64
  norm_num
  omega

/-- The only signal of the stdout goroutine is its end-of-scan send. -/
theorem mem_stdoutDone {p : PlayerRun} {w : Pending} (h : w ∈ stdoutDone p) :
    w.sig = Signal.stdoutEnd ∧ p.stdoutEnd = some w.time := by
  unfold stdoutDone at h
  split at h
  · simp at h
  · rename_i t ht
    simp at h
    subst h
    exact ⟨rfl, ht⟩

/-- C7 (counterexample): `CheckWithVLC` with `d = 10` reads the line
`"stream error"` at time 0 and nothing else; it does not conclude within 5 s
of the line nor strictly before its hard timeout of 20 s. -/
theorem C7_CheckWithVLC_ignores_failure_marker :
    ¬ ∃ r c, CheckWithVLC (oneLineRun 0 "stream error") "https://example.com/stream.m3u8" 10
        "/usr/bin/vlc" = some r ∧ r.value = false ∧ r.concludedAt = some c ∧
        c ≤ 0 + 5000000000 ∧ c < 20000000000 := by
  have h : CheckWithVLC (oneLineRun 0 "stream error") "https://example.com/stream.m3u8" 10
      "/usr/bin/vlc" = some ⟨false, some 20000000000,
        [Effect.command "/usr/bin/vlc" "https://example.com/stream.m3u8", Effect.start,
          Effect.kill, Effect.closeStderr, Effect.closeStdout]⟩ := by decide
  rintro ⟨r, c, hr, -, hc, h5, -⟩
  rw [h] at hr
  cases hr
  simp at hc
  omega

/-- C7 (amended): in `CheckRTMPStatus` and `LongCheckWithVLC`, a started
session whose stderr has a failure-marker line read at time `t` and no
success-marker line returns playable = false no later than `t + 5 s`; in
`CheckRTMPStatus` never later than the 35 s hard timeout, and strictly before
it when `t + 5 s < 35 s`. -/
theorem C7_failure_marker_concludes_false (dial : String → Bool) (p : PlayerRun) (url : String)
    (VLCPath : String) (t : Nat) (line : String)
    (hl : Launched p = true) (hd : dial (rtmpHostPort url) = true)
    (hmem : (t, line) ∈ p.stderrLines) (hfail : Contains line "stream error" = true)
    (hno : ∀ x ∈ p.stderrLines, Contains x.2 "Raising max DPB to 3" = false) :
    (∃ r c, CheckRTMPStatus dial p url VLCPath = some r ∧ r.value.2 = false ∧
      r.concludedAt = some c ∧ c ≤ t + 5000000000 ∧ c ≤ 35000000000 ∧
      (t + 5000000000 < 35000000000 → c < 35000000000)) ∧
    (∃ r c, LongCheckWithVLC p url VLCPath = some r ∧ r.value = false ∧
      r.concludedAt = some c ∧ c ≤ t + 5000000000) := by
  obtain ⟨a5, -, -, a35⟩ := after_seconds t
  constructor
  · obtain ⟨r, hr⟩ := CheckRTMPStatus_returns dial p url VLCPath
    have hr2 := hr
    rw [CheckRTMPStatus_launched hd hl] at hr2
    simp only [Option.map_eq_some'] at hr2
    obtain ⟨w, hw, rfl⟩ := hr2
    obtain ⟨hwm, hmin⟩ := firstReady_spec hw
    have hf : w.time ≤ t + 5000000000 := by
      have := hmin ⟨after t (5 * Second), Signal.failure⟩
        (by
          simp only [List.mem_append]
          exact Or.inl (Or.inr (mem_rtmpTimers.2 (Or.inr ⟨(t, line), hmem, hfail, rfl⟩))))
      simpa [a5] using this
    have ht : w.time ≤ 35000000000 := by
      have := hmin ⟨after 0 (35 * Second), Signal.timeout⟩ (by simp)
      simpa [a35] using this
    have hns : w.sig ≠ Signal.success := by
      intro hs
      simp only [List.mem_append, List.mem_singleton] at hwm
      rcases hwm with (hm | hm) | hm
      · rw [(mem_stdoutDone hm).1] at hs; simp at hs
      · rcases mem_rtmpTimers.1 hm with ⟨x, hx, hc, -⟩ | ⟨x, hx, hc, rfl⟩
        · rw [hno x hx] at hc; simp at hc
        · simp at hs
      · rw [hm] at hs; simp at hs
    refine ⟨_, w.time, hr, ?_, rfl, hf, ht, fun h => by omega⟩
    cases hs : w.sig <;> simp [flagAfter, hs] at hns ⊢
  · have hne : stdoutDone p ++ longTimers p.stderrLines ≠ [] := by
      intro h
      have : (⟨after t (5 * Second), Signal.failure⟩ : Pending) ∈
          stdoutDone p ++ longTimers p.stderrLines :=
        List.mem_append.2 (Or.inr (mem_longTimers.2 (Or.inr ⟨(t, line), hmem, hfail, rfl⟩)))
      rw [h] at this
      simp at this
    obtain ⟨w, hw⟩ := firstReady_returns p.tie _ hne
    obtain ⟨hwm, hmin⟩ := firstReady_spec hw
    have hf : w.time ≤ t + 5000000000 := by
      have := hmin ⟨after t (5 * Second), Signal.failure⟩
        (List.mem_append.2 (Or.inr (mem_longTimers.2 (Or.inr ⟨(t, line), hmem, hfail, rfl⟩))))
      simpa [a5] using this
    have hns : w.sig ≠ Signal.success := by
      intro hs
      simp only [List.mem_append] at hwm
      rcases hwm with hm | hm
      · rw [(mem_stdoutDone hm).1] at hs; simp at hs
      · rcases mem_longTimers.1 hm with ⟨x, hx, hc, -⟩ | ⟨x, hx, hc, rfl⟩
        · rw [hno x hx] at hc; simp at hc
        · simp at hs
    refine ⟨_, w.time, by rw [LongCheckWithVLC_launched hl, hw]; rfl, ?_, rfl, hf⟩
    cases hs : w.sig <;> simp [flagAfter, hs] at hns ⊢

/-- Witness for C7: the line `"stream error"` read 2 s after the start. -/
theorem C7_failure_marker_witness :
    (∃ r c, CheckRTMPStatus (fun _ => true) (oneLineRun 2000000000 "stream error")
        "rtmp://10.0.0.9:1935/app/key" "/usr/bin/vlc" = some r ∧ r.value.2 = false ∧
      r.concludedAt = some c ∧ c ≤ 2000000000 + 5000000000 ∧ c ≤ 35000000000 ∧
      (2000000000 + 5000000000 < 35000000000 → c < 35000000000)) ∧
    (∃ r c, LongCheckWithVLC (oneLineRun 2000000000 "stream error")
        "rtmp://10.0.0.9:1935/app/key" "/usr/bin/vlc" = some r ∧ r.value = false ∧
      r.concludedAt = some c ∧ c ≤ 2000000000 + 5000000000) :=
  C7_failure_marker_concludes_false (fun _ => true) (oneLineRun 2000000000 "stream error")
    "rtmp://10.0.0.9:1935/app/key" "/usr/bin/vlc" 2000000000 "stream error"
    (by decide) (by decide) (by decide) (by decide) (by decide)

/-- Without a success-marker line `CheckWithVLC` arms no timer. -/
theorem hlsTimers_eq_nil {duration : Int} {lines : List (Nat × String)}
    (h : ∀ x ∈ lines, Contains x.2 "Changing stream format Unknown -> TS" = false) :
    hlsTimers duration lines = [] := by
  apply List.eq_nil_iff_forall_not_mem.2
  intro w hw
  obtain ⟨x, hx, hc, -⟩ := mem_hlsTimers.1 hw
  rw [h x hx] at hc
  simp at hc

/-- Without marker lines `CheckRTMPStatus` arms no timer. -/
theorem rtmpTimers_eq_nil {lines : List (Nat × String)}
    (h : ∀ x ∈ lines, Contains x.2 "Raising max DPB to 3" = false ∧
      Contains x.2 "stream error" = false) :
    rtmpTimers lines = [] := by
  apply List.eq_nil_iff_forall_not_mem.2
  intro w hw
  rcases mem_rtmpTimers.1 hw with ⟨x, hx, hc, -⟩ | ⟨x, hx, hc, -⟩
  · rw [(h x hx).1] at hc; simp at hc
  · rw [(h x hx).2] at hc; simp at hc

/-- Without marker lines `LongCheckWithVLC` arms no timer. -/
theorem longTimers_eq_nil {lines : List (Nat × String)}
    (h : ∀ x ∈ lines, Contains x.2 "Raising max DPB to 3" = false ∧
      Contains x.2 "stream error" = false) :
    longTimers lines = [] := by
  apply List.eq_nil_iff_forall_not_mem.2
  intro w hw
  rcases mem_longTimers.1 hw with ⟨x, hx, hc, -⟩ | ⟨x, hx, hc, -⟩
  · rw [(h x hx).1] at hc; simp at hc
  · rw [(h x hx).2] at hc; simp at hc

/-- With no timer armed and stdout not ending by time `T`, the `select` is woken by the timeout at `T`. -/
theorem firstReady_timeout_only {p : PlayerRun} {T : Nat}
    (hout : ∀ t, p.stdoutEnd = some t → T < t) :
    firstReady p.tie (stdoutDone p ++ [] ++ [⟨T, Signal.timeout⟩]) = some ⟨T, Signal.timeout⟩ := by
  obtain ⟨w, hw⟩ := firstReady_returns p.tie
    (stdoutDone p ++ [] ++ [⟨T, Signal.timeout⟩]) (by simp)
  obtain ⟨hwm, hmin⟩ := firstReady_spec hw
  have hT := hmin ⟨T, Signal.timeout⟩ (by simp)
  simp only [List.append_nil, List.mem_append, List.mem_singleton] at hwm
  rcases hwm with hm | hm
  · have := hout _ (mem_stdoutDone hm).2
    simp at hT
    omega
  · rw [hw, hm]

/-- C8 (counterexample): `LongCheckWithVLC` on a player that prints nothing
and never closes its stdout never returns: its `select` has no timeout case. -/
theorem C8_LongCheckWithVLC_never_concludes :
    LongCheckWithVLC silentRun "rtmp://10.0.0.9:1935/app/key" "/usr/bin/vlc" = none := by
  decide

/-- C8 (amended): in `CheckWithVLC` (hard timeout `duration + 10 s`, equal to
`(d + 10) s` when that fits an `int64` count of nanoseconds) and in
`CheckRTMPStatus` (hard timeout 35 s), a started session in which no stderr
line contains a marker of that variant and stdout does not end by the hard
timeout concludes at the hard timeout with playable = false, the player
having been killed once.  `LongCheckWithVLC` has no hard timeout: with no
marker line and stdout never ending it does not return. -/
theorem C8_hard_timeout_concludes_false (dial : String → Bool) (p : PlayerRun) (url : String)
    (d : Int) (VLCPath : String) (hl : Launched p = true)
    (hd : dial (rtmpHostPort url) = true) :
    (0 ≤ d → d ≤ 9223372026 →
      wrap64 (wrap64 (d * Second) + 10 * Second) = (d + 10) * Second) ∧
    ((∀ x ∈ p.stderrLines, Contains x.2 "Changing stream format Unknown -> TS" = false) →
      (∀ t, p.stdoutEnd = some t → (wrap64 (wrap64 (d * Second) + 10 * Second)).toNat < t) →
      ∃ r, CheckWithVLC p url d VLCPath = some r ∧ r.value = false ∧
        r.concludedAt = some (wrap64 (wrap64 (d * Second) + 10 * Second)).toNat ∧
        KilledOnce r.trace) ∧
    ((∀ x ∈ p.stderrLines, Contains x.2 "Raising max DPB to 3" = false ∧
        Contains x.2 "stream error" = false) →
      (∀ t, p.stdoutEnd = some t → 35000000000 < t) →
      ∃ r, CheckRTMPStatus dial p url VLCPath = some r ∧ r.value.2 = false ∧
        r.concludedAt = some 35000000000 ∧ KilledOnce r.trace) ∧
    ((∀ x ∈ p.stderrLines, Contains x.2 "Raising max DPB to 3" = false ∧
        Contains x.2 "stream error" = false) →
      p.stdoutEnd = none → LongCheckWithVLC p url VLCPath = none) := by
  refine ⟨?_, ?_, ?_, ?_⟩
  · intro h0 h1
    have hdur : wrap64 (d * Second) = d * Second :=
      wrap64_of_range (by simp only [Second]; omega) (by simp only [Second]; omega)
    rw [hdur]
    have := wrap64_of_range (x := d * Second + 10 * Second)
      (by simp only [Second]; omega) (by simp only [Second]; omega)
    rw [this]; ring
  · intro hno hout
    refine ⟨⟨false, some (wrap64 (wrap64 (d * Second) + 10 * Second)).toNat,
      [Effect.command VLCPath url, Effect.start, Effect.kill, Effect.closeStderr,
        Effect.closeStdout]⟩, ?_, rfl, rfl, KilledOnce_hls VLCPath url⟩
    rw [CheckWithVLC_launched hl, hlsTimers_eq_nil hno]
    have := firstReady_timeout_only (p := p)
      (T := after 0 (wrap64 (wrap64 (d * Second) + 10 * Second)))
      (by intro t ht; simpa [after] using hout t ht)
    rw [this]
    simp [after]
  · intro hno hout
    obtain ⟨-, -, -, a35⟩ := after_seconds 0
    refine ⟨⟨(false, false), some 35000000000,
      [Effect.dial (rtmpHostPort url), Effect.command VLCPath url, Effect.start, Effect.kill,
        Effect.connClose]⟩, ?_, rfl, rfl, KilledOnce_rtmp _ VLCPath url⟩
    rw [CheckRTMPStatus_launched hd hl, rtmpTimers_eq_nil hno]
    have := firstReady_timeout_only (p := p) (T := after 0 (35 * Second))
      (by intro t ht; simpa [a35] using hout t ht)
    rw [this]
    simp [a35, flagAfter]
  · intro hno hout
    rw [LongCheckWithVLC_launched hl, longTimers_eq_nil hno]
    simp [stdoutDone, hout, firstReady_nil]

/-- Witness for C8: the silent player with `d = 10`: `CheckWithVLC` concludes
false at 20 s, `CheckRTMPStatus` at 35 s, and `LongCheckWithVLC` does not return. -/
theorem C8_hard_timeout_witness :
    (∃ r, CheckWithVLC silentRun "rtmp://10.0.0.9:1935/app/key" 10 "/usr/bin/vlc" = some r ∧
      r.value = false ∧ r.concludedAt = some 20000000000 ∧ KilledOnce r.trace) ∧
    (∃ r, CheckRTMPStatus (fun _ => true) silentRun "rtmp://10.0.0.9:1935/app/key"
        "/usr/bin/vlc" = some r ∧ r.value.2 = false ∧
      r.concludedAt = some 35000000000 ∧ KilledOnce r.trace) ∧
    LongCheckWithVLC silentRun "rtmp://10.0.0.9:1935/app/key" "/usr/bin/vlc" = none :=
  have h := C8_hard_timeout_concludes_false (fun _ => true) silentRun
    "rtmp://10.0.0.9:1935/app/key" 10 "/usr/bin/vlc" (by decide) (by decide)
  ⟨h.2.1 (by decide) (by decide), h.2.2.1 (by decide) (by decide),
    h.2.2.2 (by decide) (by decide)⟩

/-- C9 (counterexample): with the success marker read at time 0 and nothing
else, `CheckWithVLC` with `d = 1` concludes true at 6 s (the timer is
`duration + 5 s`), five seconds after time 1; and with `d = 9223372030`
(`d ≥ 1`) the sum `duration + 10 s` overflows `int64`, the timeout fires at
once, and the function returns false at time 0. -/
theorem C9_CheckWithVLC_concludes_at_six_not_one :
    CheckWithVLC (oneLineRun 0 "Changing stream format Unknown -> TS")
      "https://example.com/stream.m3u8" 1 "/usr/bin/vlc" =
      some ⟨true, some 6000000000,
        [Effect.command "/usr/bin/vlc" "https://example.com/stream.m3u8", Effect.start,
          Effect.kill, Effect.closeStderr, Effect.closeStdout]⟩ ∧
    CheckWithVLC (oneLineRun 0 "Changing stream format Unknown -> TS")
      "https://example.com/stream.m3u8" 9223372030 "/usr/bin/vlc" =
      some ⟨false, some 0,
        [Effect.command "/usr/bin/vlc" "https://example.com/stream.m3u8", Effect.start,
          Effect.kill, Effect.closeStderr, Effect.closeStdout]⟩ := by
  constructor <;> decide

/-- C9 (amended): for `1 ≤ d ≤ 9223372026` (so that `(d + 10) s` fits an
`int64` count of nanoseconds), a started `CheckWithVLC` session whose stdout
never ends, whose only stderr line is a success-marker line at time 0 and
whose `Kill` succeeds returns true and concludes exactly at `(d + 5) s`: no
earlier than `d s`, strictly before the hard timeout `(d + 10) s`, never at
time 0. -/
theorem C9_success_marker_concludes_at_d_plus_5 (p : PlayerRun) (url : String) (d : Int)
    (VLCPath : String) (line : String) (hl : Launched p = true) (hk : p.killErr = false)
    (hout : p.stdoutEnd = none) (hlines : p.stderrLines = [(0, line)])
    (hm : Contains line "Changing stream format Unknown -> TS" = true)
    (h1 : 1 ≤ d) (h2 : d ≤ 9223372026) :
    ∃ r c, CheckWithVLC p url d VLCPath = some r ∧ r.value = true ∧ r.concludedAt = some c ∧
      (c : Int) = (d + 5) * 1000000000 ∧ d * 1000000000 ≤ (c : Int) ∧
      (c : Int) < (d + 10) * 1000000000 ∧ c ≠ 0 := by
  have hdur : wrap64 (d * Second) = d * Second :=
    wrap64_of_range (by simp only [Second]; omega) (by simp only [Second]; omega)
  have h5 : wrap64 (d * Second + 5 * Second) = (d + 5) * 1000000000 := by
    rw [wrap64_of_range (by simp only [Second]; omega) (by simp only [Second]; omega)]
    simp only [Second]; ring
  have h10 : wrap64 (d * Second + 10 * Second) = (d + 10) * 1000000000 := by
    rw [wrap64_of_range (by simp only [Second]; omega) (by simp only [Second]; omega)]
    simp only [Second]; ring
  have hsig : stdoutDone p ++ hlsTimers (wrap64 (d * Second)) p.stderrLines ++
      [⟨after 0 (wrap64 (wrap64 (d * Second) + 10 * Second)), Signal.timeout⟩] =
      [⟨((d + 5) * 1000000000).toNat, Signal.success⟩,
        ⟨((d + 10) * 1000000000).toNat, Signal.timeout⟩] := by
    simp [stdoutDone, hout, hlines, hlsTimers, hm, hdur, h5, h10, after]
  obtain ⟨w, hw⟩ := firstReady_returns p.tie
    ([⟨((d + 5) * 1000000000).toNat, Signal.success⟩,
        ⟨((d + 10) * 1000000000).toNat, Signal.timeout⟩]) (by simp)
  obtain ⟨hwm, hmin⟩ := firstReady_spec hw
  have hlt : ((d + 5) * 1000000000).toNat < ((d + 10) * 1000000000).toNat := by omega
  have hwe : w = ⟨((d + 5) * 1000000000).toNat, Signal.success⟩ := by
    simp only [List.mem_cons, List.mem_singleton, List.not_mem_nil, or_false] at hwm
    rcases hwm with h | h
    · exact h
    · have := hmin ⟨((d + 5) * 1000000000).toNat, Signal.success⟩ (by simp)
      rw [h] at this
      simp at this
      omega
  refine ⟨⟨true, some ((d + 5) * 1000000000).toNat,
    [Effect.command VLCPath url, Effect.start, Effect.kill, Effect.closeStderr,
      Effect.closeStdout]⟩, ((d + 5) * 1000000000).toNat, ?_, rfl, rfl, ?_, ?_, ?_, ?_⟩
  · rw [CheckWithVLC_launched hl, hsig, hw, hwe]
    simp [hk]
  · omega
  · omega
  · omega
  · omega

/-- Witness for C9: `d = 1`: the session concludes true at 6 s, between 1 s and 11 s. -/
theorem C9_success_marker_witness :
    ∃ r c, CheckWithVLC (oneLineRun 0 "Changing stream format Unknown -> TS")
        "https://example.com/stream.m3u8" 1 "/usr/bin/vlc" = some r ∧ r.value = true ∧
      r.concludedAt = some c ∧
      (c : Int) = (1 + 5) * 1000000000 ∧ 1 * 1000000000 ≤ (c : Int) ∧
      (c : Int) < (1 + 10) * 1000000000 ∧ c ≠ 0 :=
  C9_success_marker_concludes_at_d_plus_5 (oneLineRun 0 "Changing stream format Unknown -> TS")
    "https://example.com/stream.m3u8" 1 "/usr/bin/vlc" "Changing stream format Unknown -> TS"
    (by decide) (by decide) (by decide) (by decide) (by decide) (by decide) (by decide)

/-- The first component of `CheckRTMPStatus` is true only if the dial
succeeded; after a successful dial it is true on every return except the one
taken when the `select` is woken by the hard timeout. -/
theorem serverStatus_true_iff_not_timed_out (dial : String → Bool) (p : PlayerRun)
    (url : String) (VLCPath : String) (r : Outcome (Bool × Bool))
    (hr : CheckRTMPStatus dial p url VLCPath = some r) :
    (r.value.1 = true → dial (rtmpHostPort url) = true) ∧
    (dial (rtmpHostPort url) = true → Launched p = false → r.value.1 = true) ∧
    (dial (rtmpHostPort url) = true → Launched p = true →
      ∃ w, firstReady p.tie (stdoutDone p ++ rtmpTimers p.stderrLines ++
          [⟨after 0 (35 * Second), Signal.timeout⟩]) = some w ∧
        (r.value.1 = true ↔ w.sig ≠ Signal.timeout)) := by
  refine ⟨?_, ?_, ?_⟩
  · intro hv
    by_contra hd
    simp only [Bool.not_eq_true] at hd
    simp [CheckRTMPStatus, hd] at hr
    subst hr
    simp at hv
  · intro hd hl
    unfold CheckRTMPStatus at hr
    cases h1 : p.stdoutPipeErr <;> cases h2 : p.stderrPipeErr <;> cases h3 : p.startErr <;>
      simp [Launched, h1, h2, h3, hd] at hl hr <;> subst hr <;> rfl
  · intro hd hl
    rw [CheckRTMPStatus_launched hd hl] at hr
    simp only [Option.map_eq_some'] at hr
    obtain ⟨w, hw, rfl⟩ := hr
    exact ⟨w, hw, by simp⟩

/-- C10 (evaluation at the failing input): the dial succeeds, the player
starts and prints nothing for 35 s; `CheckRTMPStatus` takes the timeout case
and returns `(false, false)`: the first component is false although the TCP
connection was established. -/
theorem C10_CheckRTMPStatus_timeout_reports_server_down :
    CheckRTMPStatus (fun _ => true) silentRun "rtmp://10.0.0.9:1935/app/key" "/usr/bin/vlc" =
      some ⟨(false, false), some 35000000000,
        [Effect.dial "10.0.0.9:1935",
          Effect.command "/usr/bin/vlc" "rtmp://10.0.0.9:1935/app/key", Effect.start,
          Effect.kill, Effect.connClose]⟩ := by
  decide

end AFVT
